import Mathlib

/-!
Verification of the Terminal-ScreenTime sampling-and-aggregation pipeline.

The repository logs one CSV row per sampler tick
(`timestamp, idle_seconds, app_name, window_title`) and aggregates the log
into daily / weekly / per-app reports.  The definitions below are shallow
embeddings of the relevant Python functions; each definition's doc comment
names the file and lines it embeds.  Timestamps are modelled as whole
seconds (naturals), calendar dates as day indices (one day = 86400 s).
-/

namespace ScreenTime

/-- One row of `activity_log.csv` (header written by `setup_logging` in
`src/screentime_tracker.py` lines 47-52): `timestamp` (seconds), `idle_seconds`,
`app_name`, `window_title`. -/
structure Record where
  ts : Nat
  idle : Nat
  app : String
  title : String
deriving DecidableEq, Repr

/-- Idle threshold, `IDLE_THRESHOLD = 300` (`src/screentime_tracker.py` line 15). -/
def IDLE_THRESHOLD : Nat := 300

/-- The `active` column computed by `load_data` in `src/screentime_cli.py`
line 134: `df['active'] = df['idle_seconds'] < 300`.  Nothing else is
consulted: not the app name, not any lock information. -/
def isActive (r : Record) : Bool := decide (r.idle < IDLE_THRESHOLD)

/-- Window-title cleaning in `src/screentime_tracker.py` line 74:
`window_title.encode('ascii', 'ignore').decode('ascii')` drops every
non-ASCII character. -/
def asciiClean (s : String) : String := ⟨s.data.filter (fun c => c.toNat < 128)⟩

/-- One tick of the Windows sampler, `log_activity` in
`src/screentime_tracker.py` lines 61-80: `active = idle_time < IDLE_THRESHOLD
and not screensaver`; if active the record carries the probed foreground
app/window, otherwise the pair `("Idle", "System Idle")`; `idle_seconds` is
always the measured idle time and the title is ASCII-cleaned.
The Linux sampler (`src/Linux/screentime_tracker.py` lines 241-262) is the
same case split. -/
def winTick (ts idle : Nat) (screensaver : Bool) (fgApp fgTitle : String) : Record :=
  let active := decide (idle < IDLE_THRESHOLD) && !screensaver
  let sel := if active then (fgApp, fgTitle) else ("Idle", "System Idle")
  { ts := ts, idle := idle, app := sel.1, title := asciiClean sel.2 }

/-- Record selection of one tick of the macOS sampler, `log_activity` in
`src/Mac/screentime_tracker.py` lines 236-243: if the screen is locked the
record is `("Screen Locked", "Screen Saver")` with `idle_seconds = 0`;
otherwise it carries the probed foreground app/window and the measured idle
time (there is no idle-threshold branch).  `src/screentime_standalone.py`
lines 143-151 are identical. -/
def macTick (ts : Nat) (locked : Bool) (idle : Nat) (fgApp fgTitle : String) : Record :=
  if locked then { ts := ts, idle := 0, app := "Screen Locked", title := "Screen Saver" }
  else { ts := ts, idle := idle, app := fgApp, title := fgTitle }

/-- Mutable loop state of the change-or-heartbeat sampler
(`src/screentime_standalone.py` lines 136-137 / `src/Mac/screentime_tracker.py`
lines 222-223): the last written app/window pair plus the log written so far. -/
structure TrackState where
  lastApp : String
  lastWindow : String
  log : List Record
deriving DecidableEq, Repr

/-- What one tick of the change-or-heartbeat sampler observes: the wall-clock
time `now` in whole seconds (the loop uses it both as `time.time()` and as the
record timestamp), the lock state, and the probed foreground app, window title
and idle seconds. -/
structure TickInput where
  now : Nat
  locked : Bool
  app : String
  title : String
  idle : Nat
deriving DecidableEq, Repr

/-- Record selection of the change-or-heartbeat loop body
(`src/screentime_standalone.py` lines 144-151): locked ticks become
`("Screen Locked", "Screen Saver", 0)`, otherwise the probed values pass
through. -/
def tickSelect (inp : TickInput) : String × String × Nat :=
  if inp.locked then ("Screen Locked", "Screen Saver", 0) else (inp.app, inp.title, inp.idle)

/-- One iteration of the change-or-heartbeat loop,
`src/screentime_standalone.py` lines 141-171 (`src/Mac/screentime_tracker.py`
lines 233-263 are identical): a record is appended, and `last_app` /
`last_window` updated, exactly when
`app_name != last_app or window_title != last_window or time.time() % 30 < 1`.
The heartbeat condition compares the current wall-clock time modulo 30
against 1; no elapsed-time-since-last-write is kept anywhere. -/
def tickStep (st : TrackState) (inp : TickInput) : TrackState :=
  let sel := tickSelect inp
  if sel.1 ≠ st.lastApp ∨ sel.2.1 ≠ st.lastWindow ∨ inp.now % 30 < 1 then
    { lastApp := sel.1, lastWindow := sel.2.1,
      log := st.log ++ [{ ts := inp.now, idle := sel.2.2, app := sel.1, title := sel.2.1 }] }
  else st

/-- The change-or-heartbeat loop run over a finite list of tick inputs. -/
def runTicks (st : TrackState) : List TickInput → TrackState
  | [] => st
  | i :: is => runTicks (tickStep st i) is

/-- The Active rows of a record list:
`recent_data[recent_data['active']]` in `app_usage_stats`
(`src/screentime_cli.py` line 214). -/
def activeRecords (rs : List Record) : List Record := rs.filter (fun r => isActive r)

/-- `usage_minutes=('active', 'sum')` in `app_usage_stats`
(`src/screentime_cli.py` line 215): the sum of the boolean `active` column
over the Active rows grouped under `app`. -/
def usageMinutes (rs : List Record) (app : String) : Nat :=
  (((activeRecords rs).filter (fun r => r.app == app)).map
    (fun r => if isActive r then 1 else 0)).sum

/-- `sessions=('timestamp', 'count')` in `app_usage_stats`
(`src/screentime_cli.py` line 217): simply the number of Active rows grouped
under `app` — no run or gap analysis of any kind. -/
def sessionsCount (rs : List Record) (app : String) : Nat :=
  ((activeRecords rs).filter (fun r => r.app == app)).length

/-- Modelled from the spec for comparison with `sessionsCount` (C4): the
number of maximal contiguous runs of `app` among the Active records taken in
order, where a run ends when the app name changes or the gap between
consecutive Active records exceeds the sampling `interval`.  `prev` is the
previous Active record, if any. -/
def specRunsAux (interval : Nat) (app : String) : Option Record → List Record → Nat
  | _, [] => 0
  | prev, r :: rest =>
    (if r.app == app &&
        (match prev with
         | none => true
         | some p => p.app != r.app || decide (interval < r.ts - p.ts))
      then 1 else 0) + specRunsAux interval app (some r) rest

/-- Modelled from the spec (C4): session count as maximal contiguous runs of
the same `app_name` over the window's Active records. -/
def specSessionRuns (interval : Nat) (app : String) (rs : List Record) : Nat :=
  specRunsAux interval app none (activeRecords rs)

/-- `productive_apps` of `productivity_analysis`
(`src/screentime_cli.py` lines 235-236). -/
def productiveApps : List String :=
  ["code.exe", "notepad++.exe", "sublime_text.exe", "atom.exe",
   "pycharm64.exe", "devenv.exe", "git.exe"]

/-- `social_apps` of `productivity_analysis`
(`src/screentime_cli.py` lines 237-238). -/
def socialApps : List String :=
  ["chrome.exe", "firefox.exe", "discord.exe", "telegram.exe",
   "whatsapp.exe", "slack.exe"]

/-- `entertainment_apps` of `productivity_analysis`
(`src/screentime_cli.py` lines 239-240). -/
def entertainmentApps : List String :=
  ["spotify.exe", "vlc.exe", "netflix.exe", "youtube.exe",
   "steam.exe", "epicgameslauncher.exe"]

/-- Python `str.lower()` on the character list of a string (the app names and
keyword lists involved are ASCII, where `Char.toLower` coincides with it). -/
def lowerStr (s : String) : String := ⟨s.data.map Char.toLower⟩

/-- The membership test of `productivity_analysis`
(`src/screentime_cli.py` lines 251-253):
`app_name.str.lower().isin([k.lower() for k in keywords])` — exact
case-insensitive equality against the keyword list, not a substring match. -/
def matchesList (app : String) (keywords : List String) : Bool :=
  (keywords.map lowerStr).contains (lowerStr app)

/-- The four buckets of `productivity_analysis`. -/
inductive Category where
  | productive
  | social
  | entertainment
  | other
deriving DecidableEq, Repr

/-- The category an app's time is attributed to by `productivity_analysis`
(`src/screentime_cli.py` lines 251-255): membership in the three keyword
lists, the remainder (`other_time = total - productive - social -
entertainment`) being Other.  The three lists are pairwise disjoint, so the
three independent `isin` filters of the code assign each app exactly one
bucket, in this order. -/
def categoryOf (app : String) : Category :=
  if matchesList app productiveApps then .productive
  else if matchesList app socialApps then .social
  else if matchesList app entertainmentApps then .entertainment
  else .other

/-- Whether `pat` occurs at the start of `l`. -/
def startsWithSeq : List Char → List Char → Bool
  | [], _ => true
  | _ :: _, [] => false
  | a :: as, b :: bs => a == b && startsWithSeq as bs

/-- Whether `pat` occurs contiguously anywhere inside `l`. -/
def containsSeq (pat : List Char) : List Char → Bool
  | [] => startsWithSeq pat []
  | l@(_ :: rest) => startsWithSeq pat l || containsSeq pat rest

/-- Modelled from the spec for comparison with `matchesList` (C5):
case-insensitive substring match of the app name against a keyword list. -/
def specMatches (app : String) (keywords : List String) : Bool :=
  keywords.any (fun k => containsSeq (lowerStr k).data (lowerStr app).data)

/-- Modelled from the spec (C5): first matching category in table order wins
under substring matching; unmatched apps are Other. -/
def specCategoryOf (app : String) : Category :=
  if specMatches app productiveApps then .productive
  else if specMatches app socialApps then .social
  else if specMatches app entertainmentApps then .entertainment
  else .other

/-- Seconds in one day; `timedelta(days=1)` in `custom_date_range`
(`src/screentime_cli.py` line 288). -/
def secondsPerDay : Nat := 86400

/-- The record filter of `custom_date_range` (`src/screentime_cli.py` lines
287-294): `start_dt = strptime(start, %Y-%m-%d)` is midnight of day `d1`,
`end_dt = strptime(end, %Y-%m-%d) + timedelta(days=1)` is midnight of day
`d2 + 1`, and the kept rows satisfy
`(timestamp >= start_dt) & (timestamp < end_dt)`.  Dates are day indices. -/
def customFilter (d1 d2 : Nat) (rs : List Record) : List Record :=
  rs.filter (fun r =>
    decide (d1 * secondsPerDay ≤ r.ts) && decide (r.ts < (d2 + 1) * secondsPerDay))

/-- Distinct app names among the Active rows:
`filtered_data[filtered_data['active']]['app_name'].nunique()`
(`src/screentime_cli.py` line 301; line 160 is the same for today). -/
def uniqueActiveApps (rs : List Record) : Nat :=
  ((activeRecords rs).map (fun r => r.app)).eraseDups.length

/-- Sum of the `active` column: `filtered_data['active'].sum()`
(`src/screentime_cli.py` line 300; line 159 is the same for today). -/
def activeSum (rs : List Record) : Nat :=
  (rs.map (fun r => if isActive r then 1 else 0)).sum

/-- What a run of `custom_date_range` (`src/screentime_cli.py` lines
283-321) can come to. -/
inductive RangeOutcome where
  | invalidFormat
  | noFile
  | noData
  | report (activeMinutes : Nat) (uniqueApps : Nat)
deriving DecidableEq, Repr

/-- `custom_date_range` (`src/screentime_cli.py` lines 283-321): the two
`strptime` calls run first (a failure of either raises `ValueError`, caught
at line 318 with the "Invalid date format" message — modelled as the `none`
cases); only then is the log loaded (`None` → silent return) and filtered;
an empty filtered set prints "No data found for the period"; otherwise the
report is computed.  No start-versus-end comparison happens anywhere. -/
def customDateRange (pd1 pd2 : Option Nat) (data : Option (List Record)) : RangeOutcome :=
  match pd1, pd2 with
  | some d1, some d2 =>
    match data with
    | none => .noFile
    | some rs =>
      let filtered := customFilter d1 d2 rs
      if filtered.isEmpty then .noData
      else .report (activeSum filtered) (uniqueActiveApps filtered)
  | _, _ => .invalidFormat

/-- Calendar day of a timestamp, `df['timestamp'].dt.date`
(`src/screentime_cli.py` line 153) under the day-index model. -/
def dayOf (ts : Nat) : Nat := ts / secondsPerDay

/-- `today_data = df[df['timestamp'].dt.date == today]`
(`src/screentime_cli.py` line 153). -/
def todayFilter (today : Nat) (rs : List Record) : List Record :=
  rs.filter (fun r => dayOf r.ts == today)

/-- Per-app row counts of the Active rows,
`today_data[today_data['active']].groupby('app_name').size()`
(`src/screentime_cli.py` line 169).  Keys appear in first-occurrence order;
the descending sort and `head(5)` truncation of the display are not modelled
(their tie order is decided by the library's unstable sort — see C6). -/
def appCountsActive (rs : List Record) : List (String × Nat) :=
  (((activeRecords rs).map (fun r => r.app)).eraseDups).map
    (fun a => (a, (activeRecords rs).countP (fun r => r.app == a)))

/-- What a run of `today_summary` (`src/screentime_cli.py` lines 147-172)
can come to. -/
inductive TodayOutcome where
  | noData
  | summary (activeMinutes : Nat) (uniqueApps : Nat) (topApps : List (String × Nat))
deriving DecidableEq, Repr

/-- `today_summary` (`src/screentime_cli.py` lines 147-172) on loaded data:
filter to today; if the filtered frame is empty, print the explicit
"No activity recorded for today" message and return; otherwise report the
active-minute sum, the distinct-Active-app count and the per-app counts.
A total function: no branch can fail. -/
def todaySummary (today : Nat) (rs : List Record) : TodayOutcome :=
  let td := todayFilter today rs
  if td.isEmpty then .noData
  else .summary (activeSum td) (uniqueActiveApps td) (appCountsActive td)

/-- A raw byte of the log file. -/
abbrev Byte : Type := Fin 256

/-- Whether a byte is a UTF-8 continuation byte (`10xxxxxx`). -/
def isCont (b : Byte) : Bool := decide (128 ≤ b.val) && decide (b.val < 192)

/-- Strict UTF-8 decoding (the Python `utf-8` codec): rejects stray
continuation bytes, truncated or overlong sequences, surrogates and
codepoints beyond U+10FFFF; raising `UnicodeDecodeError` is modelled as
`none`. -/
def utf8Decode : List Byte → Option (List Nat)
  | [] => some []
  | b :: rest =>
    if b.val < 128 then (utf8Decode rest).map (b.val :: ·)
    else if b.val < 192 then none
    else if b.val < 224 then
      match rest with
      | c1 :: r =>
        if isCont c1 then
          let cp := (b.val - 192) * 64 + (c1.val - 128)
          if cp < 128 then none else (utf8Decode r).map (cp :: ·)
        else none
      | _ => none
    else if b.val < 240 then
      match rest with
      | c1 :: c2 :: r =>
        if isCont c1 && isCont c2 then
          let cp := (b.val - 224) * 4096 + (c1.val - 128) * 64 + (c2.val - 128)
          if cp < 2048 then none
          else if 55296 ≤ cp ∧ cp ≤ 57343 then none
          else (utf8Decode r).map (cp :: ·)
        else none
      | _ => none
    else if b.val < 248 then
      match rest with
      | c1 :: c2 :: c3 :: r =>
        if isCont c1 && isCont c2 && isCont c3 then
          let cp := (b.val - 240) * 262144 + (c1.val - 128) * 4096 +
            (c2.val - 128) * 64 + (c3.val - 128)
          if cp < 65536 then none
          else if 1114111 < cp then none
          else (utf8Decode r).map (cp :: ·)
        else none
      | _ => none
    else none

/-- The Python `latin-1` codec: every byte 0x00-0xFF decodes to the
codepoint of the same value, so decoding is total and never raises. -/
def latin1Decode (bs : List Byte) : List Nat := bs.map (fun b => b.val)

/-- The Python `cp1252` codec on a single byte: ASCII and 0xA0-0xFF map to
themselves, 0x80-0x9F map through the Windows-1252 table, and the five
unassigned bytes 0x81, 0x8D, 0x8F, 0x90, 0x9D raise (`none`). -/
def cp1252Byte (b : Byte) : Option Nat :=
  if b.val < 128 then some b.val
  else if 160 ≤ b.val then some b.val
  else match b.val with
    | 128 => some 8364
    | 130 => some 8218
    | 131 => some 402
    | 132 => some 8222
    | 133 => some 8230
    | 134 => some 8224
    | 135 => some 8225
    | 136 => some 710
    | 137 => some 8240
    | 138 => some 352
    | 139 => some 8249
    | 140 => some 338
    | 142 => some 381
    | 145 => some 8216
    | 146 => some 8217
    | 147 => some 8220
    | 148 => some 8221
    | 149 => some 8226
    | 150 => some 8211
    | 151 => some 8212
    | 152 => some 732
    | 153 => some 8482
    | 154 => some 353
    | 155 => some 8250
    | 156 => some 339
    | 158 => some 382
    | 159 => some 376
    | _ => none

/-- The Python `cp1252` codec over a byte sequence. -/
def cp1252Decode (bs : List Byte) : Option (List Nat) := bs.mapM cp1252Byte

/-- The Python `utf-8-sig` codec: strip a leading BOM (EF BB BF) if present,
then decode as strict UTF-8. -/
def utf8sigDecode (bs : List Byte) : Option (List Nat) :=
  match bs with
  | b0 :: b1 :: b2 :: rest =>
    if b0.val == 239 && b1.val == 187 && b2.val == 191 then utf8Decode rest
    else utf8Decode (b0 :: b1 :: b2 :: rest)
  | _ => utf8Decode bs

/-- The fallback chain of `load_data` (`src/screentime_cli.py` line 119;
`src/Linux/screentime_cli.py` line 133 is identical):
`encodings = ['utf-8', 'latin-1', 'cp1252', 'utf-8-sig']`, each attempted in
order, retrying only on a Unicode decode error. -/
def encodingChain : List (List Byte → Option (List Nat)) :=
  [utf8Decode, fun bs => some (latin1Decode bs), cp1252Decode, utf8sigDecode]

/-- The `for encoding in encodings: try ... except UnicodeDecodeError:
continue` loop of `load_data` (`src/screentime_cli.py` lines 122-127): the
first decoder that does not raise wins; `none` means the loop exhausted the
list and left `df` as `None`. -/
def firstSuccess (ds : List (List Byte → Option (List Nat))) (bs : List Byte) :
    Option (List Nat) :=
  match ds with
  | [] => none
  | d :: rest =>
    match d bs with
    | some t => some t
    | none => firstSuccess rest bs

/-- What a run of `load_data` (`src/screentime_cli.py` lines 112-138) can
come to, at decoding granularity. -/
inductive LoadOutcome where
  | noFile
  | encodingIssue
  | parsed (text : List Nat)
deriving DecidableEq, Repr

/-- `load_data` (`src/screentime_cli.py` lines 112-138) at decoding
granularity: missing file → "No data found" early return (`noFile`); if the
encoding loop exhausts the chain, the
"Unable to read data file due to encoding issues" branch (`encodingIssue`);
otherwise the decoded text is parsed into the data frame (`parsed`). -/
def loadDataDecode (file : Option (List Byte)) : LoadOutcome :=
  match file with
  | none => .noFile
  | some bs =>
    match firstSuccess encodingChain bs with
    | none => .encodingIssue
    | some t => .parsed t

end ScreenTime

namespace ScreenTime

/-- C1 counterexample: the record written by the macOS sampler while the
screen is locked (sentinel app name "Screen Locked", `idle_seconds = 0`) IS
classified Active by `load_data`, because the `active` column depends only on
`idle_seconds < 300`.  The claim says such a record is never counted Active. -/
theorem C1_counterexample :
    isActive (macTick 0 true 0 "Safari" "Docs") = true ∧
    (macTick 0 true 0 "Safari" "Docs").app = "Screen Locked" := by
  exact ⟨rfl, rfl⟩

/-- C1 amended: `load_data` classifies a record Active iff
`idle_seconds < 300`, ignoring lock state and sentinel app names entirely;
in particular every locked-session record written by the macOS/standalone
sampler (which carries `idle_seconds = 0`) is classified Active. -/
theorem C1_amended :
    (∀ r : Record, isActive r = true ↔ r.idle < 300) ∧
    (∀ ts idle a t, isActive (macTick ts true idle a t) = true) := by
  constructor
  · intro r
    simp [isActive, IDLE_THRESHOLD]
  · intro ts idle a t
    rfl

/-- C2 counterexample: on a Windows sampler tick with the session locked
(screensaver active) and `idle_seconds = 0`, the written record is
`("Idle", "System Idle")` carrying the measured idle time, not the claimed
`("Screen Locked", "Screen Saver", 0)`; and on a macOS tick with
`idle_seconds = 400 ≥ 300` and the screen not locked, the record carries the
real foreground app, not the claimed `("Idle", "System Idle")`. -/
theorem C2_counterexample :
    winTick 0 0 true "chrome.exe" "Gmail" =
      { ts := 0, idle := 0, app := "Idle", title := "System Idle" } ∧
    ("Idle" : String) ≠ "Screen Locked" ∧
    (macTick 7 false 400 "Safari" "Docs").app = "Safari" ∧
    ("Safari" : String) ≠ "Idle" := by
  refine ⟨by decide, by decide, rfl, by decide⟩

/-- C2 amended: the two sampler variants have different case splits.
Windows/Linux tick: if `idle_seconds < 300` and the screensaver is not
active, the record carries the real foreground app and the ASCII-cleaned
window title; otherwise it is `("Idle", "System Idle")` still carrying the
measured `idle_seconds` (never `"Screen Locked"`, never a forced 0).
macOS/standalone tick: if locked, the record is
`("Screen Locked", "Screen Saver")` with `idle_seconds = 0`; otherwise the
real app/window with the measured idle time, even when `idle_seconds ≥ 300`
(never `"Idle"`/`"System Idle"`). -/
theorem C2_amended :
    (∀ ts idle ss a t, (idle < 300 ∧ ss = false →
        winTick ts idle ss a t = { ts := ts, idle := idle, app := a, title := asciiClean t }) ∧
      (300 ≤ idle ∨ ss = true →
        winTick ts idle ss a t = { ts := ts, idle := idle, app := "Idle", title := "System Idle" })) ∧
    (∀ ts idle a t,
      macTick ts true idle a t =
        { ts := ts, idle := 0, app := "Screen Locked", title := "Screen Saver" } ∧
      macTick ts false idle a t = { ts := ts, idle := idle, app := a, title := t }) := by
  constructor
  · intro ts idle ss a t
    constructor
    · rintro ⟨hlt, hss⟩
      subst hss
      simp [winTick, IDLE_THRESHOLD, hlt]
    · intro h
      rcases h with h | h
      · have hnot : ¬ idle < 300 := not_lt.mpr h
        cases ss <;> simp [winTick, IDLE_THRESHOLD, hnot] <;> rfl
      · subst h
        simp [winTick]
        rfl
  · intro ts idle a t
    exact ⟨rfl, rfl⟩

/-- C2 witness: the amended tick equations evaluated at concrete inputs,
one instance per case of the split. -/
theorem C2_witness :
    winTick 5 10 false "chrome.exe" "Inbox" =
      { ts := 5, idle := 10, app := "chrome.exe", title := "Inbox" } ∧
    winTick 6 400 false "chrome.exe" "Inbox" =
      { ts := 6, idle := 400, app := "Idle", title := "System Idle" } ∧
    winTick 7 10 true "chrome.exe" "Inbox" =
      { ts := 7, idle := 10, app := "Idle", title := "System Idle" } := by
  refine ⟨?_, ?_, ?_⟩
  · have h := (C2_amended.1 5 10 false "chrome.exe" "Inbox").1 ⟨by decide, rfl⟩
    simpa using h
  · exact (C2_amended.1 6 400 false "chrome.exe" "Inbox").2 (Or.inl (by decide))
  · exact (C2_amended.1 7 10 true "chrome.exe" "Inbox").2 (Or.inr rfl)

/-- C3 counterexample: a concrete steady-state run of the change-or-heartbeat
loop.  Ticks arrive every 5 seconds at times 1, 6, ..., 96 with a constant
unlocked foreground app.  The first tick writes (app change from the empty
initial state); none of the 19 following ticks writes, because
`t % 30 < 1` fails at every one of them — even though 95 seconds
(far more than 30 plus one 5-second tick) elapse after the only write.
The claim would require a heartbeat write at most 35 seconds after it. -/
theorem C3_counterexample :
    (runTicks { lastApp := "", lastWindow := "", log := [] }
      ([1, 6, 11, 16, 21, 26, 31, 36, 41, 46, 51, 56, 61, 66, 71, 76, 81, 86, 91, 96].map
        (fun t => { now := t, locked := false, app := "code.exe", title := "main.py", idle := 0 }))).log
      = [{ ts := 1, idle := 0, app := "code.exe", title := "main.py" }] ∧
    96 - 1 > 30 + 5 := by
  exact ⟨by decide, by decide⟩

/-- C3 amended: the gate of the change-or-heartbeat variant is
`app_name != last_app or window_title != last_window or time.time() % 30 < 1`:
the heartbeat fires when the current wall-clock time modulo 30 is below 1,
not when 30 seconds have elapsed since the last write.  Consequently
(first conjunct) a steady-state run whose tick times all satisfy
`t % 30 ≥ 1` appends no record at all, however long it is — consecutive
writes are NOT bounded by 30 seconds plus one tick; and (second conjunct)
any tick whose time lands in the modulo-30 window writes even with no
change. -/
theorem C3_amended :
    (∀ st : TrackState, ∀ ts : List Nat, ∀ idle : Nat,
      (∀ t ∈ ts, 1 ≤ t % 30) →
      runTicks st (ts.map (fun t =>
        { now := t, locked := false, app := st.lastApp, title := st.lastWindow,
          idle := idle })) = st) ∧
    (∀ st inp, inp.now % 30 < 1 → ((tickStep st inp).log).length = st.log.length + 1) := by
  constructor
  · intro st ts idle h
    induction ts with
    | nil => rfl
    | cons t rest ih =>
      have hstep : tickStep st
          { now := t, locked := false, app := st.lastApp, title := st.lastWindow,
            idle := idle } = st := by
        have hmod : ¬ t % 30 < 1 := Nat.not_lt.mpr (h t (by simp))
        simp [tickStep, tickSelect, hmod]
      simp only [List.map_cons, runTicks, hstep]
      exact ih (fun u hu => h u (by simp [hu]))
  · intro st inp h
    have h0 : inp.now % 30 = 0 := Nat.lt_one_iff.mp h
    simp [tickStep, h0]

/-- C3 witness: the amended theorem evaluated at a concrete steady-state run
(tick times 6, 11, 36, none on a modulo-30 boundary → no write) and at a
concrete heartbeat tick (time 30 → one write despite no change). -/
theorem C3_witness :
    runTicks { lastApp := "a", lastWindow := "w", log := [] }
      ([6, 11, 36].map (fun t =>
        { now := t, locked := false, app := "a", title := "w", idle := 0 })) =
      { lastApp := "a", lastWindow := "w", log := [] } ∧
    ((tickStep { lastApp := "a", lastWindow := "w", log := [] }
      { now := 30, locked := false, app := "a", title := "w", idle := 0 }).log).length
      = ([] : List Record).length + 1 := by
  constructor
  · exact C3_amended.1 { lastApp := "a", lastWindow := "w", log := [] } [6, 11, 36] 0 (by decide)
  · exact C3_amended.2 { lastApp := "a", lastWindow := "w", log := [] }
      { now := 30, locked := false, app := "a", title := "w", idle := 0 } (by decide)

/-- Over a list of records that are all Active, summing the boolean `active`
column yields the row count. -/
theorem sum_active_column_eq_length (l : List Record) (h : ∀ r ∈ l, isActive r = true) :
    (l.map (fun r => if isActive r then 1 else 0)).sum = l.length := by
  induction l with
  | nil => rfl
  | cons r rest ih =>
    have hr : isActive r = true := h r (by simp)
    have hrest := ih (fun x hx => h x (by simp [hx]))
    simp [hr, hrest]
    omega

/-- C4 counterexample: three Active records one sampling interval (60 s)
apart, apps A, A, B.  App A has one maximal contiguous run (the spec notion
of a session), but the code reports `sessions = 2` — its aggregation
`sessions=('timestamp', 'count')` is a plain row count. -/
theorem C4_counterexample :
    sessionsCount
      [{ ts := 0, idle := 0, app := "A", title := "" },
       { ts := 60, idle := 0, app := "A", title := "" },
       { ts := 120, idle := 0, app := "B", title := "" }] "A" = 2 ∧
    specSessionRuns 60 "A"
      [{ ts := 0, idle := 0, app := "A", title := "" },
       { ts := 60, idle := 0, app := "A", title := "" },
       { ts := 120, idle := 0, app := "B", title := "" }] = 1 ∧
    (2 : Nat) ≠ 1 := by
  exact ⟨by decide, by decide, by decide⟩

/-- C4 amended: the reported `sessions` value is the number of Active records
of that app in the window — exactly the same count as `usage_minutes` — and
performs no contiguous-run or gap analysis. -/
theorem C4_amended : ∀ rs app, sessionsCount rs app = usageMinutes rs app := by
  intro rs app
  have h : ∀ r ∈ (activeRecords rs).filter (fun r => r.app == app), isActive r = true := by
    intro r hr
    have hr2 : r ∈ activeRecords rs := (List.mem_filter.mp hr).1
    exact (List.mem_filter.mp hr2).2
  exact (sum_active_column_eq_length _ h).symm

/-- C5 counterexample: the app name "Xcode.exe" contains the Productive
keyword "code.exe" as a case-insensitive substring, so the claim categorizes
it Productive; the code's exact `isin` membership test finds it in no list
and attributes its time to Other. -/
theorem C5_counterexample :
    categoryOf "Xcode.exe" = .other ∧
    specCategoryOf "Xcode.exe" = .productive ∧
    Category.other ≠ .productive := by
  exact ⟨by decide, by decide, by decide⟩

/-- C5 amended: categorization is by exact case-insensitive equality of the
app name against the keyword lists (the lists are disjoint, so first match in
table order and unique membership coincide); "Code.exe" equals the keyword
"code.exe" ignoring case and is Productive, but a strict superstring of a
keyword matches nothing and is Other. -/
theorem C5_amended :
    categoryOf "Code.exe" = .productive ∧
    (∀ app, categoryOf app = .productive ↔ matchesList app productiveApps = true) ∧
    (∀ app, matchesList app productiveApps = false → matchesList app socialApps = false →
      matchesList app entertainmentApps = false → categoryOf app = .other) := by
  refine ⟨by decide, ?_, ?_⟩
  · intro app
    cases hp : matchesList app productiveApps <;>
      cases hs : matchesList app socialApps <;>
      cases he : matchesList app entertainmentApps <;>
      simp [categoryOf, hp, hs, he]
  · intro app h1 h2 h3
    simp [categoryOf, h1, h2, h3]

/-- C5 witness: the amended characterization applied to the concrete app
name "explorer.exe", which is in none of the keyword lists. -/
theorem C5_witness : categoryOf "explorer.exe" = .other :=
  C5_amended.2.2 "explorer.exe" (by decide) (by decide) (by decide)

/-- C7: the custom-range window is the half-open interval
`[d1 midnight, (d2+1) midnight)`.  A record of the set is kept iff its
timestamp lies in that interval; in particular (given `d1 ≤ d2`) every
record with a timestamp anywhere on day `d2` is kept, and a record whose
timestamp is exactly midnight of the day after `d2` is excluded. -/
theorem C7_theorem (d1 d2 : Nat) (rs : List Record) (r : Record) (hmem : r ∈ rs) :
    (r ∈ customFilter d1 d2 rs ↔
      d1 * secondsPerDay ≤ r.ts ∧ r.ts < (d2 + 1) * secondsPerDay) ∧
    (d1 ≤ d2 → d2 * secondsPerDay ≤ r.ts → r.ts < (d2 + 1) * secondsPerDay →
      r ∈ customFilter d1 d2 rs) ∧
    (r.ts = (d2 + 1) * secondsPerDay → r ∉ customFilter d1 d2 rs) := by
  have hiff : r ∈ customFilter d1 d2 rs ↔
      d1 * secondsPerDay ≤ r.ts ∧ r.ts < (d2 + 1) * secondsPerDay := by
    simp [customFilter, List.mem_filter, hmem]
  refine ⟨hiff, ?_, ?_⟩
  · intro h12 hlo hhi
    exact hiff.mpr ⟨le_trans (Nat.mul_le_mul_right secondsPerDay h12) hlo, hhi⟩
  · intro he
    rw [hiff]
    rintro ⟨-, hlt⟩
    omega

/-- C7 witness: the single-day range `d1 = d2 = 19723` (2024-01-01 as a day
index): the last second of 2024-01-01 is included and midnight of 2024-01-02
(timestamp `19724 * 86400`) is excluded. -/
theorem C7_witness :
    ({ ts := 19723 * 86400 + 86399, idle := 0, app := "a", title := "" } : Record) ∈
      customFilter 19723 19723
        [{ ts := 19723 * 86400 + 86399, idle := 0, app := "a", title := "" },
         { ts := 19724 * 86400, idle := 0, app := "b", title := "" }] ∧
    ({ ts := 19724 * 86400, idle := 0, app := "b", title := "" } : Record) ∉
      customFilter 19723 19723
        [{ ts := 19723 * 86400 + 86399, idle := 0, app := "a", title := "" },
         { ts := 19724 * 86400, idle := 0, app := "b", title := "" }] := by
  constructor
  · exact (C7_theorem 19723 19723
      [{ ts := 19723 * 86400 + 86399, idle := 0, app := "a", title := "" },
       { ts := 19724 * 86400, idle := 0, app := "b", title := "" }]
      { ts := 19723 * 86400 + 86399, idle := 0, app := "a", title := "" }
      (by decide)).2.1 (by decide) (by decide) (by decide)
  · exact (C7_theorem 19723 19723
      [{ ts := 19723 * 86400 + 86399, idle := 0, app := "a", title := "" },
       { ts := 19724 * 86400, idle := 0, app := "b", title := "" }]
      { ts := 19724 * 86400, idle := 0, app := "b", title := "" }
      (by decide)).2.2 (by decide)

/-- C8 counterexample: the range start = day 5, end = day 1 parses fine and
`start > end`, yet the code produces no validation message: it loads the
log, filters it (the window `[5·86400, 2·86400)` is empty) and lands in the
"No data found for the period" branch — aggregation over the records has
already been performed by then. -/
theorem C8_counterexample :
    customDateRange (some 5) (some 1)
      (some [{ ts := 100, idle := 0, app := "a", title := "" }]) = .noData ∧
    RangeOutcome.noData ≠ .invalidFormat ∧ 5 > 1 := by
  exact ⟨by decide, by decide, by decide⟩

/-- C8 amended: only a date string that fails to parse produces the direct
"Invalid date format" validation message and aborts before the log is read;
a parsed range with `start > end` is not validated — the code proceeds to
load and filter the records, and since the half-open window is empty it
always reaches the "No data found" branch. -/
theorem C8_amended :
    (∀ pd2 data, customDateRange none pd2 data = .invalidFormat) ∧
    (∀ d1 data, customDateRange (some d1) none data = .invalidFormat) ∧
    (∀ d1 d2 rs, d2 < d1 →
      customDateRange (some d1) (some d2) (some rs) = .noData) := by
  refine ⟨fun pd2 data => rfl, fun d1 data => rfl, ?_⟩
  intro d1 d2 rs h
  have hempty : customFilter d1 d2 rs = [] := by
    unfold customFilter
    rw [List.filter_eq_nil_iff]
    intro r hr
    simp only [Bool.and_eq_true, decide_eq_true_eq, not_and, not_lt]
    intro h1
    have hmul : (d2 + 1) * secondsPerDay ≤ d1 * secondsPerDay :=
      Nat.mul_le_mul_right secondsPerDay (Nat.succ_le_of_lt h)
    exact le_trans hmul h1
  simp [customDateRange, hempty]

/-- C8 witness: the amended theorem applied to the concrete inverted range
start = day 5, end = day 1 on an empty record set. -/
theorem C8_witness : customDateRange (some 5) (some 1) (some []) = .noData :=
  C8_amended.2.2 5 1 [] (by decide)

/-- C9: on a window whose filtered record set is empty, `today_summary`
reaches the explicit "No activity recorded for today" outcome; the summary
components evaluate to zero totals and empty rankings on the empty set; and
the computation is total — every run ends in either the no-data message or
a summary, never a failure. -/
theorem C9_theorem :
    (∀ today rs, todayFilter today rs = [] → todaySummary today rs = .noData) ∧
    activeSum [] = 0 ∧ uniqueActiveApps [] = 0 ∧ appCountsActive [] = [] ∧
    (∀ today rs, todaySummary today rs = .noData ∨
      ∃ m u t, todaySummary today rs = .summary m u t) := by
  refine ⟨?_, rfl, rfl, rfl, ?_⟩
  · intro today rs h
    simp [todaySummary, h]
  · intro today rs
    by_cases h : (todayFilter today rs).isEmpty
    · left
      simp [todaySummary, h]
    · right
      refine ⟨activeSum (todayFilter today rs), uniqueActiveApps (todayFilter today rs),
        appCountsActive (todayFilter today rs), ?_⟩
      simp [todaySummary, h]

/-- C9 witness: a concrete log whose only record is on day 3, asked about
day 0 — the filtered set is empty and the outcome is the no-data message. -/
theorem C9_witness :
    todaySummary 0 [{ ts := 3 * 86400, idle := 0, app := "a", title := "" }] = .noData :=
  C9_theorem.1 0 [{ ts := 3 * 86400, idle := 0, app := "a", title := "" }] (by decide)

/-- C10: in the encoding-fallback chain of `load_data`, the second attempt
(`latin-1`) decodes every possible byte sequence, so the loop never exhausts
the list: whenever strict UTF-8 fails the chain returns the latin-1
decoding, for every existing file the decode stage yields a parsed data set,
and the "unable to read data file due to encoding issues" branch is
unreachable for every input. -/
theorem C10_theorem :
    (∀ bs : List Byte, utf8Decode bs = none →
      firstSuccess encodingChain bs = some (latin1Decode bs)) ∧
    (∀ bs : List Byte, ∃ t, loadDataDecode (some bs) = .parsed t) ∧
    (∀ file, loadDataDecode file ≠ .encodingIssue) := by
  have hchain : ∀ bs : List Byte, ∃ t, firstSuccess encodingChain bs = some t := by
    intro bs
    cases h : utf8Decode bs with
    | some t => exact ⟨t, by simp [firstSuccess, encodingChain, h]⟩
    | none => exact ⟨latin1Decode bs, by simp [firstSuccess, encodingChain, h]⟩
  refine ⟨?_, ?_, ?_⟩
  · intro bs h
    simp [firstSuccess, encodingChain, h]
  · intro bs
    obtain ⟨t, ht⟩ := hchain bs
    exact ⟨t, by simp [loadDataDecode, ht]⟩
  · intro file
    cases file with
    | none => simp [loadDataDecode]
    | some bs =>
      obtain ⟨t, ht⟩ := hchain bs
      simp [loadDataDecode, ht]

/-- C10 witness: the byte 0xFF is invalid UTF-8, and the chain decodes the
file `[0xFF]` with latin-1 to the codepoint sequence `[255]`. -/
theorem C10_witness :
    firstSuccess encodingChain [(255 : Fin 256)] = some [255] :=
  C10_theorem.1 [(255 : Fin 256)] (by decide)

end ScreenTime
